import Mathlib

/-!
Shallow embedding of the client-side core of the SFPD drone-flight dashboard
(`src/app/components/MapWithTimeline.tsx`): the reason-normalization table,
the facet aggregation (reasons, neighborhoods, districts, duration buckets),
the faceted record filter, and the timeline playback engine.

Modelling conventions:
* JS strings are Lean `String`; `trim`/`toLowerCase` are modelled over the
  ASCII range by `jsTrim`/`jsToLower` (every key of the normalization table
  and every label in the code is ASCII, apart from the em-dash sentinel,
  which neither trimming nor lowercasing touches).
* Nullable JS fields are `Option`; `x ?? d` is `Option.getD`, and the JS
  truthiness test on a string is comparison with `""`.
* JS numbers (timestamps in ms, durations in minutes, percentages, playback
  speed) are `ℚ`; `Number(x) || 0` is modelled by carrying the parse result
  as `Option ℚ` (`none` for NaN) and taking `Option.getD 0`.
* A JS object used as a counter (`Record<string, number>` plus
  `Object.values`/`Object.entries`) is an insertion-ordered association
  list built by `bump`.
* `Array.prototype.sort` with comparator `(a, b) => b[1] - a[1]` is a
  stable descending sort by count, modelled by the structural insertion
  sort `sortByCountDesc`.
-/

namespace SfpdDash

/-- Lowercase a single character, ASCII model of JS `toLowerCase`. -/
def lowerChar (c : Char) : Char :=
  if 65 ≤ c.toNat ∧ c.toNat ≤ 90 then Char.ofNat (c.toNat + 32) else c

/-- ASCII model of JS `String.prototype.toLowerCase`. -/
def jsToLower (s : String) : String := ⟨s.data.map lowerChar⟩

/-- Model of JS `String.prototype.trim`: drop whitespace from both ends. -/
def jsTrim (s : String) : String :=
  ⟨(((s.data.dropWhile Char.isWhitespace).reverse).dropWhile Char.isWhitespace).reverse⟩

/-- One flight record (interface `DroneFlight` in `src/lib/sfpd-flights.ts`),
restricted to the fields the dashboard core reads.  `date` is the timestamp
`new Date(f.date).getTime()` in milliseconds; `flight_duration_minutes`
carries the result of JS `Number(...)` on the raw duration string (`none`
models NaN, i.e. a malformed duration). -/
structure DroneFlight where
  date : ℚ
  reason_for_flight : Option String
  flight_duration_minutes : Option ℚ
  analysis_neighborhood : Option String
  supervisor_district : Option String
deriving DecidableEq

/-- Normalize a reason for grouping, from `normalizeReason` in the source:
`(s || "").trim().toLowerCase()` (the null case is handled at call sites by
`Option.getD ""`). -/
def normalizeReason (s : String) : String := jsToLower (jsTrim s)

/-- The static raw-variant → canonical-label table `REASON_CANONICAL` from
the source, as an ordered association list (keys are already normalized,
values are display labels).  The source object literal has no duplicate
keys, so first-match lookup agrees with JS object lookup. -/
def REASON_CANONICAL : List (String × String) := [
  ("person with gun", "Person with weapon"),
  ("person with a gun", "Person with weapon"),
  ("person with weapon", "Person with weapon"),
  ("person with a weapon", "Person with weapon"),
  ("person w/gun", "Person with weapon"),
  ("person w/gun-shots fired", "Person with weapon"),
  ("subject with gun", "Person with weapon"),
  ("brandishing gun", "Person with weapon"),
  ("gun brandishing", "Person with weapon"),
  ("person with knife", "Person with knife"),
  ("person with a knife", "Person with knife"),
  ("peson with a knife", "Person with knife"),
  ("person with a kinfe", "Person with knife"),
  ("person with kife", "Person with knife"),
  ("person with machete", "Person with knife"),
  ("person with sword", "Person with knife"),
  ("person with a axe", "Person with knife"),
  ("man with a knife", "Person with knife"),
  ("pursuant to a search warrant", "Search warrant"),
  ("search warrant", "Search warrant"),
  ("search warrant service", "Search warrant"),
  ("stolen plate", "Stolen plate(s)"),
  ("stolen plates", "Stolen plate(s)"),
  ("stolen license plate", "Stolen plate(s)"),
  ("stolen license plates", "Stolen plate(s)"),
  ("domestic violence", "Domestic violence"),
  ("domestic violence call", "Domestic violence"),
  ("domestic battery", "Domestic violence"),
  ("domestic violence fight", "Domestic violence"),
  ("suicidal person", "Suicidal / crisis"),
  ("suicidal subject", "Suicidal / crisis"),
  ("suicidal person.", "Suicidal / crisis"),
  ("suicide attempt", "Suicidal / crisis"),
  ("suicide", "Suicidal / crisis"),
  ("suicidal", "Suicidal / crisis"),
  ("wanted person", "Wanted person"),
  ("wanted subject", "Wanted person"),
  ("wanted vehicle", "Wanted vehicle"),
  ("wanted suspect", "Wanted person"),
  ("hit and run", "Hit and run"),
  ("hit and run vehicle", "Hit and run"),
  ("hit and run collision", "Hit and run"),
  ("h&r", "Hit and run"),
  ("auto burglary", "Auto burglary"),
  ("auto burglary vehicle", "Auto burglary"),
  ("fight with weapons", "Fight"),
  ("fight with weapon", "Fight"),
  ("fights with weapon", "Fight"),
  ("physical fight", "Fight"),
  ("fight no weapons", "Fight"),
  ("shooting", "Shooting / shots fired"),
  ("shots fired", "Shooting / shots fired"),
  ("person shot", "Shooting / shots fired"),
  ("shooting investigation", "Shooting / shots fired"),
  ("aggravated assault", "Aggravated assault"),
  ("aggravated assault with knife", "Aggravated assault"),
  ("aggravated assault with vehicle", "Aggravated assault"),
  ("search and rescue", "Search and rescue"),
  ("search & rescue", "Search and rescue"),
  ("warrant arrest", "Warrant"),
  ("warrant service", "Warrant"),
  ("warrant", "Warrant"),
  ("arrest warrant", "Warrant"),
  ("trespasser", "Trespassing"),
  ("trespassing", "Trespassing"),
  ("person trespassing", "Trespassing"),
  ("tresspasser", "Trespassing"),
  ("vandalism", "Vandalism"),
  ("malicious mischief", "Vandalism"),
  ("graffiti", "Vandalism"),
  ("missing person", "Missing person"),
  ("missing person at risk", "Missing person"),
  ("missing juvenile", "Missing person"),
  ("missing child", "Missing person"),
  ("missing children", "Missing person"),
  ("lost child", "Missing person"),
  ("missing infant at-risk", "Missing person"),
  ("robbery vehicle", "Robbery"),
  ("robbery with a gun", "Robbery"),
  ("robbery with gun", "Robbery"),
  ("attempted robbery", "Robbery"),
  ("armed robbery, 911 call", "Robbery"),
  ("narcotics sales", "Narcotics"),
  ("narcotics investigation", "Narcotics"),
  ("narcotics sale", "Narcotics"),
  ("narcotics operation", "Narcotics"),
  ("drug dealing", "Narcotics"),
  ("narcotics spotting operation", "Narcotics"),
  ("suspicious vehicle", "Suspicious vehicle"),
  ("suspicious person", "Suspicious person"),
  ("suspicious vehicles", "Suspicious vehicle"),
  ("stolen vehicle", "Stolen vehicle"),
  ("burglary", "Burglary"),
  ("stunt driving", "Stunt driving"),
  ("reckless driving", "Reckless driving"),
  ("fire", "Fire"),
  ("illegal fireworks", "Fireworks"),
  ("fireworks", "Fireworks")]

/-- Canonical display label for a raw reason, from `getCanonicalReason` in
the source: `REASON_CANONICAL[normalizeReason(raw)] ?? (raw || "").trim()`. -/
def getCanonicalReason (raw : String) : String :=
  match REASON_CANONICAL.lookup (normalizeReason raw) with
  | some v => v
  | none => jsTrim raw

/-- Wrapper of `getCanonicalReason` over a nullable input: both
`normalizeReason` and the fallback coalesce null to `""` via `(x || "")`. -/
def getCanonicalReasonN (raw : Option String) : String :=
  getCanonicalReason (raw.getD "")

/-- Insert one `(label, count)` pair into a descending-by-count list,
after every element whose count is ≥ its own.  Building a sort from this
models the stable JS `sort((a, b) => b[1] - a[1])`. -/
def insertCountDesc (x : String × Nat) : List (String × Nat) → List (String × Nat)
  | [] => [x]
  | y :: ys => if y.2 < x.2 then x :: y :: ys else y :: insertCountDesc x ys

/-- Stable descending sort by count, model of the source's
`.sort((a, b) => b[1] - a[1])` on `(label, count)` pairs. -/
def sortByCountDesc (l : List (String × Nat)) : List (String × Nat) :=
  l.foldl (fun acc x => insertCountDesc x acc) []

/-- Increment the counter for `k` in an insertion-ordered association list,
appending a fresh entry when absent — model of
`counts[k] = (counts[k] ?? 0) + 1` on a JS object. -/
def bump (k : String) : List (String × Nat) → List (String × Nat)
  | [] => [(k, 1)]
  | (k', c) :: rest =>
    if k' = k then (k', c + 1) :: rest else (k', c) :: bump k rest

/-- Count records by a string key, skipping records whose key is falsy
(the empty string) — the common shape of `neighborhoodsWithCount` and
`districtsWithCount` before sorting. -/
def tallyBy (keyOf : DroneFlight → String) (rs : List DroneFlight) :
    List (String × Nat) :=
  rs.foldl (fun acc f => let k := keyOf f; if k = "" then acc else bump k acc) []

/-- The `neighborhoodsWithCount` aggregation from the source:
`f.analysis_neighborhood ?? "Unknown"` as key, falsy keys skipped,
then `Object.entries(...).sort((a, b) => b[1] - a[1])`. -/
def neighborhoodsWithCount (rs : List DroneFlight) : List (String × Nat) :=
  sortByCountDesc (tallyBy (fun f => f.analysis_neighborhood.getD "Unknown") rs)

/-- The `districtsWithCount` aggregation from the source:
`f.supervisor_district ?? "—"` as key, falsy keys skipped, then sorted
descending by count.  (JS object key enumeration reorders integer-like keys
before `Object.entries`; no claim depends on tie order, so the model keeps
plain insertion order.) -/
def districtsWithCount (rs : List DroneFlight) : List (String × Nat) :=
  sortByCountDesc (tallyBy (fun f => f.supervisor_district.getD "—") rs)

/-- Entry of the reason counter `byCountKey`: `(countKey, displayLabel,
total)`, in insertion order. -/
abbrev ReasonEntry := String × String × Nat

/-- Record one reason occurrence under `countKey`, updating the display
label to `canonical` when the raw variant was in the table (`mapped`) —
the loop body of `allReasonsWithCount`. -/
def bumpReason (countKey canonical : String) (mapped : Bool) :
    List ReasonEntry → List ReasonEntry
  | [] => [(countKey, canonical, 1)]
  | (k, d, t) :: rest =>
    if k = countKey then (k, if mapped then canonical else d, t + 1) :: rest
    else (k, d, t) :: bumpReason countKey canonical mapped rest

/-- One iteration of the `allReasonsWithCount` loop: skip records whose
trimmed raw reason is empty, otherwise count them under the normalized
canonical label. -/
def reasonStep (acc : List ReasonEntry) (f : DroneFlight) : List ReasonEntry :=
  let raw := jsTrim (f.reason_for_flight.getD "")
  if raw = "" then acc
  else
    let canonical := getCanonicalReason raw
    bumpReason (normalizeReason canonical) canonical
      ((REASON_CANONICAL.lookup (normalizeReason raw)).isSome) acc

/-- The `allReasonsWithCount` aggregation from the source: fold the records
through `reasonStep`, project `(displayLabel, total)` in insertion order
(`Object.values`), and sort descending by count. -/
def allReasonsWithCount (rs : List DroneFlight) : List (String × Nat) :=
  sortByCountDesc ((rs.foldl reasonStep []).map fun e => (e.2.1, e.2.2))

/-- Minimum count for a reason to appear in the default view. -/
def MIN_REASON_COUNT : Nat := 20

/-- Maximum number of reasons shown in the default view. -/
def TOP_REASON_CAP : Nat := 20

/-- The `topReasonsWithCount` derivation: threshold then cap. -/
def topReasonsWithCount (rs : List DroneFlight) : List (String × Nat) :=
  ((allReasonsWithCount rs).filter fun p => MIN_REASON_COUNT ≤ p.2).take TOP_REASON_CAP

/-- One duration bucket of `DURATION_BUCKETS` (id, label, membership test). -/
structure DurationBucket where
  id : String
  label : String
  test : ℚ → Bool

/-- The three fixed duration buckets from the source. -/
def DURATION_BUCKETS : List DurationBucket := [
  ⟨"short", "≤15 min", fun m => decide (m ≤ 15)⟩,
  ⟨"medium", "15–60 min", fun m => decide (15 < m) && decide (m ≤ 60)⟩,
  ⟨"long", ">60 min", fun m => decide (60 < m)⟩]

/-- Duration of a record as used by the source:
`Number(f.flight_duration_minutes) || 0` (missing/NaN coalesces to 0). -/
def durationOf (f : DroneFlight) : ℚ := f.flight_duration_minutes.getD 0

/-- The `durationsWithCount` aggregation from the source: count records per
fixed bucket, keep only buckets with a positive count.  The output keeps
the fixed bucket order; the source does not re-sort it. -/
def durationsWithCount (rs : List DroneFlight) : List (String × String × Nat) :=
  ((DURATION_BUCKETS.map fun b =>
      (b.id, b.label, rs.countP fun f => b.test (durationOf f))).filter
    fun e => decide (0 < e.2.2))

/-- The four facet selection sets of the dashboard (JS `Set<string>`,
modelled as lists whose membership is what matters). -/
structure FilterSelection where
  reasons : List String
  neighborhoods : List String
  districts : List String
  durations : List String

/-- Reason-facet record predicate from `filteredFlights`: the normalized
canonical label of the record's reason is in the normalized selection. -/
def reasonPass (sel : List String) (f : DroneFlight) : Bool :=
  (sel.map normalizeReason).contains
    (normalizeReason (getCanonicalReason (f.reason_for_flight.getD "")))

/-- Neighborhood-facet record predicate from `filteredFlights`:
`(f.analysis_neighborhood && sel.has(f.analysis_neighborhood)) ||
(f.analysis_neighborhood === null && sel.has("Unknown"))`. -/
def neighborhoodPass (sel : List String) (f : DroneFlight) : Bool :=
  match f.analysis_neighborhood with
  | some n => decide (n ≠ "") && sel.contains n
  | none => sel.contains "Unknown"

/-- District-facet record predicate from `filteredFlights`:
`f.supervisor_district && sel.has(f.supervisor_district)` — a null
district never passes. -/
def districtPass (sel : List String) (f : DroneFlight) : Bool :=
  match f.supervisor_district with
  | some d => decide (d ≠ "") && sel.contains d
  | none => false

/-- Duration-facet record predicate from `filteredFlights`:
`DURATION_BUCKETS.some(b => sel.has(b.id) && b.test(m))`. -/
def durationPass (sel : List String) (f : DroneFlight) : Bool :=
  DURATION_BUCKETS.any fun b => sel.contains b.id && b.test (durationOf f)

/-- One stage of `filteredFlights`: filter only when the facet's selection
set is non-empty (`if (sel.size > 0) out = out.filter(...)`). -/
def stageFilter (sel : List String) (p : DroneFlight → Bool)
    (l : List DroneFlight) : List DroneFlight :=
  if sel = [] then l else l.filter p

/-- The `filteredFlights` derivation from the source: the date-filtered
subset further restricted by the four facet stages, in source order
(reasons, neighborhoods, districts, durations). -/
def filteredFlights (rs : List DroneFlight) (sel : FilterSelection) :
    List DroneFlight :=
  stageFilter sel.durations (durationPass sel.durations)
    (stageFilter sel.districts (districtPass sel.districts)
      (stageFilter sel.neighborhoods (neighborhoodPass sel.neighborhoods)
        (stageFilter sel.reasons (reasonPass sel.reasons) rs)))

/-- Playback position and play flag (`playbackTs`, `isPlaying`). -/
structure PlaybackState where
  pos : ℚ
  playing : Bool
deriving DecidableEq

/-- One interval tick of the loop-capable timeline variant: while playing
and the range is non-degenerate, advance by `max 1 ((re - rs) / 500)`; at
or past the range end either wrap to the range start (loop) or clamp to
the end and stop. -/
def tickLoop (loop : Bool) (rs re : ℚ) (s : PlaybackState) : PlaybackState :=
  if ¬ s.playing ∨ re ≤ rs then s
  else
    let step := max 1 ((re - rs) / 500)
    let next := s.pos + step
    if re ≤ next then
      if loop then ⟨rs, s.playing⟩ else ⟨re, false⟩
    else ⟨next, s.playing⟩

/-- One interval tick of the speed-capable timeline variant: while playing
and the range is non-degenerate, advance by
`max 1 ((re - rs) / 500 * speed)`; at or past the range end clamp to the
end and stop (this variant has no loop). -/
def tickSpeed (speed rs re : ℚ) (s : PlaybackState) : PlaybackState :=
  if ¬ s.playing then s
  else if re ≤ rs then s
  else
    let step := max 1 ((re - rs) / 500 * speed)
    let next := s.pos + step
    if re ≤ next then ⟨re, false⟩ else ⟨next, s.playing⟩

/-- Percent → timestamp over the full dataset extent, from `pctToTs`. -/
def pctToTs (minT maxT pct : ℚ) : ℚ := minT + (maxT - minT) * (pct / 100)

/-- Timestamp → percent over the full dataset extent, from `tsToPct`:
degenerate extents yield 0 instead of dividing by zero. -/
def tsToPct (minT maxT ts : ℚ) : ℚ :=
  if maxT ≤ minT then 0 else (ts - minT) / (maxT - minT) * 100

/-- Track-relative mouse percentage, clamped to [0, 100] as in the source's
`Math.max(0, Math.min(100, ...))`. -/
def clampPct (p : ℚ) : ℚ := max 0 (min 100 p)

/-- Number of activity-histogram buckets (`WAVEFORM_BUCKETS`). -/
def WAVEFORM_BUCKETS : Nat := 80

/-- The `waveformHeights` derivation: on an empty dataset or a degenerate
extent, 80 zeros; otherwise count records per equal-width bucket
(`i = min(79, floor((t - minTs) / step))`, dropped when negative, which the
model expresses by counting only at nonnegative indices) and normalize by
`max 1 maxCount`. -/
def waveformHeights (fs : List DroneFlight) (minT maxT : ℚ) : List ℚ :=
  if fs = [] ∨ maxT ≤ minT then List.replicate WAVEFORM_BUCKETS 0
  else
    let step := (maxT - minT) / (WAVEFORM_BUCKETS : ℚ)
    let idx : DroneFlight → ℤ := fun f =>
      min ((WAVEFORM_BUCKETS : ℤ) - 1) ⌊(f.date - minT) / step⌋
    let counts := (List.range WAVEFORM_BUCKETS).map fun i =>
      fs.countP fun f => decide (idx f = (i : ℤ))
    let maxCount := counts.foldl Nat.max 1
    counts.map fun c => (c : ℚ) / (maxCount : ℚ)

/-- Timeline state visible to the playback invariants: the controlled range
(`rangeStartTs`, `rangeEndTs`), the playback position and the play flag. -/
structure TimelineState where
  rs : ℚ
  re : ℚ
  pos : ℚ
  playing : Bool
deriving DecidableEq

/-- The discrete events that move the playback position: an interval tick,
a manual seek (track click / playhead drag, given as the clamped track
percentage), and a controlled range change (which re-runs the clamp
effect). -/
inductive TimelineOp where
  | tick : TimelineOp
  | seek : ℚ → TimelineOp
  | rangeChange : ℚ → ℚ → TimelineOp

/-- Apply one timeline event, over the full extent `[minT, maxT]`:
`tick` runs the loop-variant interval body, `seek` sets the position to the
pixel-mapped timestamp (`pctToTs` of the clamped percentage), and
`rangeChange` installs the new range and re-runs the source's clamp effect
(which is a no-op when `maxTs <= minTs`). -/
def applyOp (minT maxT : ℚ) (loop : Bool) (s : TimelineState) :
    TimelineOp → TimelineState
  | .tick =>
    let r := tickLoop loop s.rs s.re ⟨s.pos, s.playing⟩
    ⟨s.rs, s.re, r.pos, r.playing⟩
  | .seek pct => ⟨s.rs, s.re, pctToTs minT maxT (clampPct pct), s.playing⟩
  | .rangeChange a b =>
    ⟨a, b, if maxT ≤ minT then s.pos else max a (min b s.pos), s.playing⟩

/-- Run a sequence of timeline events. -/
def runOps (minT maxT : ℚ) (loop : Bool) (s : TimelineState)
    (ops : List TimelineOp) : TimelineState :=
  ops.foldl (applyOp minT maxT loop) s

/-- Events allowed by the amended playback-range invariant: ticks and
well-formed range changes; manual seeks are excluded (they may leave the
active range — see the counterexample). -/
def opOK : TimelineOp → Bool
  | .tick => true
  | .seek _ => false
  | .rangeChange a b => decide (a ≤ b)

/-- The in/out handle-drag events, given as the clamped track percentage
(these are the only live call sites of the `onRangeChange` mutator). -/
inductive RangeOp where
  | dragIn : ℚ → RangeOp
  | dragOut : ℚ → RangeOp

/-- Apply one handle drag, from the `dragHandle` effect: the start handle
sets `rangeStart = min(ts, rangeEnd - 1)`, the end handle sets
`rangeEnd = max(ts, rangeStart + 1)`. -/
def applyRangeOp (minT maxT : ℚ) (r : ℚ × ℚ) : RangeOp → ℚ × ℚ
  | .dragIn pct => (min (pctToTs minT maxT (clampPct pct)) (r.2 - 1), r.2)
  | .dragOut pct => (r.1, max (pctToTs minT maxT (clampPct pct)) (r.1 + 1))

/-- The combined per-record predicate of `filteredFlights`: each facet
passes when its selection set is empty or its stage predicate holds. -/
def passAll (sel : FilterSelection) (f : DroneFlight) : Bool :=
  ((decide (sel.reasons = []) || reasonPass sel.reasons f)
      && (decide (sel.neighborhoods = []) || neighborhoodPass sel.neighborhoods f)
      && (decide (sel.districts = []) || districtPass sel.districts f))
    && (decide (sel.durations = []) || durationPass sel.durations f)

/-- Total count recorded under a given label in a `(label, count)` list. -/
def keyTotal (k : String) (l : List (String × Nat)) : Nat :=
  ((l.filter fun e => decide (e.1 = k)).map Prod.snd).sum

/-- Record 1 of Scenario A: dated 2023-01-01, reason "Person with a gun". -/
def scenarioA1 : DroneFlight :=
  ⟨1672531200000, some "Person with a gun", some 10, some "Mission", some "9"⟩

/-- Record 2 of Scenario A: dated 2023-01-01, reason "person with gun". -/
def scenarioA2 : DroneFlight :=
  ⟨1672531200000, some "person with gun", some 30, none, none⟩

/-- Record 3 of Scenario A: dated 2023-01-02, reason "Fire". -/
def scenarioA3 : DroneFlight :=
  ⟨1672617600000, some "Fire", some 30, some "", some "5"⟩

/-! Helper lemmas about the stable descending sort. -/

theorem insertCountDesc_perm (x : String × Nat) (l : List (String × Nat)) :
    (insertCountDesc x l).Perm (x :: l) := by
  induction l with
  | nil => simp [insertCountDesc]
  | cons y ys ih =>
    simp only [insertCountDesc]
    split
    · exact List.Perm.refl _
    · exact (List.Perm.cons y ih).trans (List.Perm.swap x y ys)

theorem foldl_insertCountDesc_perm (l : List (String × Nat)) :
    ∀ acc, (l.foldl (fun acc x => insertCountDesc x acc) acc).Perm (l ++ acc) := by
  induction l with
  | nil => intro acc; simp
  | cons x xs ih =>
    intro acc
    simp only [List.foldl_cons, List.cons_append]
    exact ((ih _).trans (List.Perm.append_left xs (insertCountDesc_perm x acc))).trans
      List.perm_middle

theorem sortByCountDesc_perm (l : List (String × Nat)) :
    (sortByCountDesc l).Perm l := by
  simpa [sortByCountDesc] using foldl_insertCountDesc_perm l []

theorem insertCountDesc_sorted {x : String × Nat} {l : List (String × Nat)}
    (h : l.Pairwise fun a b => b.2 ≤ a.2) :
    (insertCountDesc x l).Pairwise fun a b => b.2 ≤ a.2 := by
  induction l with
  | nil => simp [insertCountDesc]
  | cons y ys ih =>
    rw [List.pairwise_cons] at h
    obtain ⟨hy, hys⟩ := h
    simp only [insertCountDesc]
    split
    · rename_i hlt
      refine List.Pairwise.cons ?_ (List.Pairwise.cons hy hys)
      intro z hz
      rcases List.mem_cons.1 hz with rfl | hz
      · exact le_of_lt hlt
      · exact le_trans (hy z hz) (le_of_lt hlt)
    · rename_i hge
      refine List.Pairwise.cons ?_ (ih hys)
      intro z hz
      have hz' := (insertCountDesc_perm x ys).mem_iff.1 hz
      rcases List.mem_cons.1 hz' with rfl | hz'
      · exact le_of_not_lt hge
      · exact hy z hz'

theorem sortByCountDesc_sorted (l : List (String × Nat)) :
    (sortByCountDesc l).Pairwise fun a b => b.2 ≤ a.2 := by
  suffices h : ∀ acc, (acc.Pairwise fun a b => b.2 ≤ a.2) →
      ((l.foldl (fun acc x => insertCountDesc x acc) acc).Pairwise
        fun a b => b.2 ≤ a.2) by
    exact h [] (by simp)
  induction l with
  | nil => intro acc hacc; simpa using hacc
  | cons x xs ih => intro acc hacc; exact ih _ (insertCountDesc_sorted hacc)

/-! Helper lemmas about the counting folds. -/

theorem bump_sum (k : String) (l : List (String × Nat)) :
    ((bump k l).map Prod.snd).sum = (l.map Prod.snd).sum + 1 := by
  induction l with
  | nil => simp [bump]
  | cons y ys ih =>
    obtain ⟨k', c⟩ := y
    simp only [bump]
    split
    · simp; omega
    · simp only [List.map_cons, List.sum_cons, ih]; omega

theorem tallyBy_fold_sum (keyOf : DroneFlight → String) (rs : List DroneFlight) :
    ∀ acc, (((rs.foldl
          (fun acc f => let k := keyOf f; if k = "" then acc else bump k acc)
          acc).map Prod.snd).sum)
      = (acc.map Prod.snd).sum + rs.countP fun f => decide (keyOf f ≠ "") := by
  induction rs with
  | nil => intro acc; simp
  | cons f fs ih =>
    intro acc
    simp only [List.foldl_cons, List.countP_cons]
    by_cases h : keyOf f = ""
    · rw [ih]; simp [h]
    · rw [ih]; simp only [if_neg h, bump_sum]; simp [h]; omega

theorem tallyBy_sum (keyOf : DroneFlight → String) (rs : List DroneFlight) :
    ((tallyBy keyOf rs).map Prod.snd).sum
      = rs.countP fun f => decide (keyOf f ≠ "") := by
  simpa [tallyBy] using tallyBy_fold_sum keyOf rs []

theorem sortByCountDesc_sum (l : List (String × Nat)) :
    ((sortByCountDesc l).map Prod.snd).sum = (l.map Prod.snd).sum :=
  ((sortByCountDesc_perm l).map Prod.snd).sum_eq

theorem bumpReason_sum (ck c : String) (m : Bool) (l : List ReasonEntry) :
    ((bumpReason ck c m l).map fun e => e.2.2).sum
      = ((l.map fun e => e.2.2).sum) + 1 := by
  induction l with
  | nil => simp [bumpReason]
  | cons y ys ih =>
    obtain ⟨k, d, t⟩ := y
    simp only [bumpReason]
    split
    · simp; omega
    · simp only [List.map_cons, List.sum_cons, ih]; omega

theorem reasonStep_fold_sum (rs : List DroneFlight) :
    ∀ acc, (((rs.foldl reasonStep acc).map fun e => e.2.2).sum)
      = ((acc.map fun e => e.2.2).sum)
        + rs.countP fun f => decide (jsTrim (f.reason_for_flight.getD "") ≠ "") := by
  induction rs with
  | nil => intro acc; simp
  | cons f fs ih =>
    intro acc
    simp only [List.foldl_cons, List.countP_cons]
    by_cases h : jsTrim (f.reason_for_flight.getD "") = ""
    · rw [ih]; simp [reasonStep, h]
    · rw [ih]; simp only [reasonStep, if_neg h, bumpReason_sum]; simp [h]; omega

/-! Helper lemmas about per-label totals (used for the district sentinel). -/

theorem keyTotal_bump (k k' : String) (l : List (String × Nat)) :
    keyTotal k (bump k' l) = keyTotal k l + if k' = k then 1 else 0 := by
  induction l with
  | nil => by_cases h : k' = k <;> simp [bump, keyTotal, h]
  | cons y ys ih =>
    obtain ⟨ky, c⟩ := y
    simp only [bump]
    by_cases h1 : ky = k'
    · subst h1
      rw [if_pos rfl]
      by_cases h2 : ky = k <;>
        simp [keyTotal, List.filter_cons, h2] <;> omega
    · rw [if_neg h1]
      simp only [keyTotal, List.filter_cons] at ih ⊢
      by_cases h2 : ky = k <;> simp [h2, ih] <;> omega

theorem keyTotal_tallyBy_fold (keyOf : DroneFlight → String) (k : String)
    (rs : List DroneFlight) :
    ∀ acc, keyTotal k
        (rs.foldl
          (fun acc f => let kf := keyOf f; if kf = "" then acc else bump kf acc)
          acc)
      = keyTotal k acc
        + rs.countP fun f => decide (keyOf f ≠ "") && decide (keyOf f = k) := by
  induction rs with
  | nil => intro acc; simp
  | cons f fs ih =>
    intro acc
    simp only [List.foldl_cons, List.countP_cons]
    by_cases h : keyOf f = ""
    · rw [ih]; simp [h]
    · rw [ih, if_neg h, keyTotal_bump]
      by_cases h2 : keyOf f = k
      · rw [h2] at h; simp [h2, h] <;> omega
      · simp [h, h2] <;> omega

theorem keyTotal_perm {l l' : List (String × Nat)} (h : l.Perm l')
    (k : String) : keyTotal k l = keyTotal k l' :=
  ((h.filter _).map Prod.snd).sum_eq

theorem keyTotal_districts (k : String) (rs : List DroneFlight) :
    keyTotal k (districtsWithCount rs)
      = rs.countP fun f =>
          decide (f.supervisor_district.getD "—" ≠ "")
            && decide (f.supervisor_district.getD "—" = k) := by
  rw [districtsWithCount, keyTotal_perm (sortByCountDesc_perm _) k]
  simpa [tallyBy, keyTotal] using
    keyTotal_tallyBy_fold (fun f => f.supervisor_district.getD "—") k rs []

/-! Helper lemmas about the duration buckets. -/

theorem duration_buckets_one (m : ℚ) :
    (DURATION_BUCKETS.countP fun b => b.test m) = 1 := by
  rcases le_or_lt m 15 with h1 | h1
  · have h2 : ¬ (15 : ℚ) < m := not_lt.2 h1
    have h3 : ¬ (60 : ℚ) < m := not_lt.2 (h1.trans (by norm_num))
    simp [DURATION_BUCKETS, h1, h2, h3]
  · rcases le_or_lt m 60 with h2 | h2
    · have h3 : ¬ m ≤ 15 := not_le.2 h1
      have h4 : ¬ (60 : ℚ) < m := not_lt.2 h2
      simp [DURATION_BUCKETS, h1, h2, h3, h4]
    · have h3 : ¬ m ≤ 15 := not_le.2 (lt_trans (by norm_num) h2)
      have h4 : ¬ m ≤ 60 := not_le.2 h2
      simp [DURATION_BUCKETS, h2, h3, h4]

theorem filter_pos_sum (l : List (String × String × Nat)) :
    (((l.filter fun e => decide (0 < e.2.2)).map fun e => e.2.2).sum)
      = ((l.map fun e => e.2.2).sum) := by
  induction l with
  | nil => simp
  | cons e es ih =>
    simp only [List.filter_cons]
    by_cases h : 0 < e.2.2
    · simp [h, ih]
    · have : e.2.2 = 0 := by omega
      simp [h, ih, this]

theorem durations_sum (rs : List DroneFlight) :
    (((durationsWithCount rs).map fun e => e.2.2).sum) = rs.length := by
  rw [durationsWithCount, filter_pos_sum, List.map_map]
  induction rs with
  | nil => simp [DURATION_BUCKETS]
  | cons f fs ih =>
    simp only [List.countP_cons, List.length_cons]
    simp only [DURATION_BUCKETS, List.map_cons, List.map_nil, List.sum_cons,
      List.sum_nil, Function.comp] at ih ⊢
    rcases le_or_lt (durationOf f) 15 with h1 | h1
    · have h2 : ¬ (15 : ℚ) < durationOf f := not_lt.2 h1
      have h3 : ¬ (60 : ℚ) < durationOf f := not_lt.2 (h1.trans (by norm_num))
      simp [h1, h2, h3]
      omega
    · rcases le_or_lt (durationOf f) 60 with h2 | h2
      · have h3 : ¬ durationOf f ≤ 15 := not_le.2 h1
        have h4 : ¬ (60 : ℚ) < durationOf f := not_lt.2 h2
        simp [h1, h2, h3, h4]
        omega
      · have h3 : ¬ durationOf f ≤ 15 := not_le.2 (lt_trans (by norm_num) h2)
        have h4 : ¬ durationOf f ≤ 60 := not_le.2 h2
        simp [h2, h3, h4]
        omega

/-! Helper lemmas about the faceted filter. -/

theorem stageFilter_eq (sel : List String) (p : DroneFlight → Bool)
    (l : List DroneFlight) :
    stageFilter sel p l = l.filter fun f => decide (sel = []) || p f := by
  unfold stageFilter
  split
  · rename_i h; simp [h]
  · rename_i h; simp [h]

theorem filteredFlights_eq (rs : List DroneFlight) (sel : FilterSelection) :
    filteredFlights rs sel = rs.filter (passAll sel) := by
  unfold filteredFlights
  rw [stageFilter_eq, stageFilter_eq, stageFilter_eq, stageFilter_eq,
    List.filter_filter, List.filter_filter, List.filter_filter]
  apply List.filter_congr
  intro f _
  unfold passAll
  cases decide (sel.reasons = []) || reasonPass sel.reasons f <;>
    cases decide (sel.neighborhoods = []) || neighborhoodPass sel.neighborhoods f <;>
    cases decide (sel.districts = []) || districtPass sel.districts f <;>
    cases decide (sel.durations = []) || durationPass sel.durations f <;>
    rfl

theorem contains_iff_mem (l : List String) (a : String) :
    l.contains a = true ↔ a ∈ l :=
  List.elem_iff

theorem reasonPass_iff (sel : List String) (f : DroneFlight) :
    reasonPass sel f = true
      ↔ ∃ l ∈ sel, normalizeReason l
          = normalizeReason (getCanonicalReason (f.reason_for_flight.getD "")) := by
  unfold reasonPass
  rw [contains_iff_mem]
  simp only [List.mem_map]

theorem neighborhoodPass_iff (sel : List String) (f : DroneFlight) :
    neighborhoodPass sel f = true
      ↔ (∃ n, f.analysis_neighborhood = some n ∧ n ≠ "" ∧ n ∈ sel)
        ∨ (f.analysis_neighborhood = none ∧ "Unknown" ∈ sel) := by
  unfold neighborhoodPass
  cases hn : f.analysis_neighborhood with
  | none => simp [contains_iff_mem]
  | some n => simp [contains_iff_mem, Bool.and_eq_true]

theorem districtPass_iff (sel : List String) (f : DroneFlight) :
    districtPass sel f = true
      ↔ ∃ d, f.supervisor_district = some d ∧ d ≠ "" ∧ d ∈ sel := by
  unfold districtPass
  cases hd : f.supervisor_district with
  | none => simp
  | some d => simp [contains_iff_mem, Bool.and_eq_true]

theorem durationPass_iff (sel : List String) (f : DroneFlight) :
    durationPass sel f = true
      ↔ ∃ b ∈ DURATION_BUCKETS, b.id ∈ sel ∧ b.test (durationOf f) = true := by
  unfold durationPass
  simp [List.any_eq_true, contains_iff_mem, Bool.and_eq_true]

theorem mem_filteredFlights (rs : List DroneFlight) (sel : FilterSelection)
    (f : DroneFlight) :
    f ∈ filteredFlights rs sel
      ↔ f ∈ rs
        ∧ (sel.reasons = []
            ∨ ∃ l ∈ sel.reasons, normalizeReason l
                = normalizeReason (getCanonicalReason (f.reason_for_flight.getD "")))
        ∧ (sel.neighborhoods = []
            ∨ (∃ n, f.analysis_neighborhood = some n ∧ n ≠ "" ∧ n ∈ sel.neighborhoods)
            ∨ (f.analysis_neighborhood = none ∧ "Unknown" ∈ sel.neighborhoods))
        ∧ (sel.districts = []
            ∨ ∃ d, f.supervisor_district = some d ∧ d ≠ "" ∧ d ∈ sel.districts)
        ∧ (sel.durations = []
            ∨ ∃ b ∈ DURATION_BUCKETS, b.id ∈ sel.durations
                ∧ b.test (durationOf f) = true) := by
  rw [filteredFlights_eq, List.mem_filter]
  simp only [passAll, Bool.and_eq_true, Bool.or_eq_true, decide_eq_true_eq,
    reasonPass_iff, neighborhoodPass_iff, districtPass_iff, durationPass_iff,
    and_assoc]

/-! Helper lemmas about the timeline state machine. -/

theorem tick_step_pos (rs re : ℚ) : 0 < max 1 ((re - rs) / 500) :=
  lt_of_lt_of_le one_pos (le_max_left _ _)

theorem applyOp_inv {minT maxT : ℚ} {loop : Bool} {s : TimelineState}
    {op : TimelineOp} (hmm : minT < maxT) (hok : opOK op = true)
    (h1 : s.rs ≤ s.re) (h2 : s.rs ≤ s.pos) (h3 : s.pos ≤ s.re) :
    (applyOp minT maxT loop s op).rs ≤ (applyOp minT maxT loop s op).re
    ∧ (applyOp minT maxT loop s op).rs ≤ (applyOp minT maxT loop s op).pos
    ∧ (applyOp minT maxT loop s op).pos ≤ (applyOp minT maxT loop s op).re := by
  cases op with
  | tick =>
    simp only [applyOp, tickLoop]
    split
    · exact ⟨h1, h2, h3⟩
    · rename_i hg
      push_neg at hg
      obtain ⟨-, hlt⟩ := hg
      split
      · split
        · exact ⟨h1, le_refl _, h1⟩
        · exact ⟨h1, h1, le_refl _⟩
      · rename_i hnext
        push_neg at hnext
        refine ⟨h1, ?_, le_of_lt hnext⟩
        have := tick_step_pos s.rs s.re
        calc s.rs ≤ s.pos := h2
          _ ≤ s.pos + max 1 ((s.re - s.rs) / 500) := by linarith
  | seek pct => simp [opOK] at hok
  | rangeChange a b =>
    have hab : a ≤ b := by simpa [opOK] using hok
    simp only [applyOp, if_neg (not_le.2 hmm)]
    exact ⟨hab, le_max_left a _, max_le hab (min_le_left b s.pos)⟩

theorem runOps_inv {minT maxT : ℚ} {loop : Bool} (ops : List TimelineOp) :
    ∀ s : TimelineState, minT < maxT → (∀ op ∈ ops, opOK op = true) →
      s.rs ≤ s.re → s.rs ≤ s.pos → s.pos ≤ s.re →
      (runOps minT maxT loop s ops).rs ≤ (runOps minT maxT loop s ops).re
      ∧ (runOps minT maxT loop s ops).rs ≤ (runOps minT maxT loop s ops).pos
      ∧ (runOps minT maxT loop s ops).pos ≤ (runOps minT maxT loop s ops).re := by
  induction ops with
  | nil => intro s _ _ h1 h2 h3; exact ⟨h1, h2, h3⟩
  | cons op rest ih =>
    intro s hmm hok h1 h2 h3
    have hop := @applyOp_inv minT maxT loop s op hmm (hok op (List.mem_cons_self _ _)) h1 h2 h3
    simpa [runOps] using
      ih (applyOp minT maxT loop s op) hmm
        (fun o ho => hok o (List.mem_cons_of_mem _ ho)) hop.1 hop.2.1 hop.2.2

theorem pctToTs_mem {minT maxT : ℚ} (hle : minT ≤ maxT) (pct : ℚ) :
    minT ≤ pctToTs minT maxT (clampPct pct)
    ∧ pctToTs minT maxT (clampPct pct) ≤ maxT := by
  have h0 : (0 : ℚ) ≤ clampPct pct := le_max_left 0 _
  have h100 : clampPct pct ≤ 100 := max_le (by norm_num) (min_le_left 100 pct)
  constructor
  · have : 0 ≤ (maxT - minT) * (clampPct pct / 100) :=
      mul_nonneg (sub_nonneg.2 hle) (div_nonneg h0 (by norm_num))
    simp only [pctToTs]
    linarith
  · have : (maxT - minT) * (clampPct pct / 100) ≤ maxT - minT :=by
      apply mul_le_of_le_one_right (sub_nonneg.2 hle)
      rw [div_le_one (by norm_num)]
      exact h100
    simp only [pctToTs]
    linarith

theorem applyRangeOp_sep (minT maxT : ℚ) (r : ℚ × ℚ) (op : RangeOp) :
    (applyRangeOp minT maxT r op).1 + 1 ≤ (applyRangeOp minT maxT r op).2 := by
  cases op with
  | dragIn pct =>
    simp only [applyRangeOp]
    have := min_le_right (pctToTs minT maxT (clampPct pct)) (r.2 - 1)
    linarith
  | dragOut pct =>
    simp only [applyRangeOp]
    have := le_max_right (pctToTs minT maxT (clampPct pct)) (r.1 + 1)
    linarith

theorem foldl_rangeOps_sep (minT maxT : ℚ) (ops : List RangeOp) :
    ∀ r : ℚ × ℚ, r.1 + 1 ≤ r.2 →
      (ops.foldl (applyRangeOp minT maxT) r).1 + 1
        ≤ (ops.foldl (applyRangeOp minT maxT) r).2 := by
  induction ops with
  | nil => intro r h; exact h
  | cons op rest ih =>
    intro r _
    simpa using ih (applyRangeOp minT maxT r op) (applyRangeOp_sep minT maxT r op)

/-! The claims. -/

/-- C1: for every raw reason string whose trimmed, lowercased form is a key
of the static normalization table, `getCanonicalReason` returns the table's
mapped canonical display label; for every other string it returns the
trimmed original string; and empty or null input yields the empty string.
It is a total Lean function, hence pure and total as the claim states. -/
theorem claimC1 :
    (∀ raw v, REASON_CANONICAL.lookup (normalizeReason raw) = some v →
      getCanonicalReason raw = v)
    ∧ (∀ raw, REASON_CANONICAL.lookup (normalizeReason raw) = none →
      getCanonicalReason raw = jsTrim raw)
    ∧ getCanonicalReasonN none = "" ∧ getCanonicalReason "" = "" := by
  refine ⟨?_, ?_, by decide, by decide⟩
  · intro raw v h
    unfold getCanonicalReason
    rw [h]
  · intro raw h
    unfold getCanonicalReason
    rw [h]

/-- Witness for C1 at a mapped variant and at an unmapped string. -/
theorem claimC1_witness :
    (REASON_CANONICAL.lookup (normalizeReason "  Person With a Gun ")
        = some "Person with weapon"
      ∧ getCanonicalReason "  Person With a Gun " = "Person with weapon")
    ∧ (REASON_CANONICAL.lookup (normalizeReason "Neighborhood patrol") = none
      ∧ getCanonicalReason "Neighborhood patrol" = jsTrim "Neighborhood patrol") :=
  ⟨⟨by decide, claimC1.1 "  Person With a Gun " "Person with weapon" (by decide)⟩,
   ⟨by decide, claimC1.2.1 "Neighborhood patrol" (by decide)⟩⟩

/-- C2: on a playback tick while playing over a non-degenerate range, the
position advances by `step = max(1, (rangeEnd - rangeStart) / 500 *
speedMultiplier)`; when the advanced position reaches `rangeEnd`, the
loop-capable variant wraps to `rangeStart` when loop is enabled and
otherwise clamps to `rangeEnd` and stops; the speed-capable variant (whose
step carries the multiplier, loop unavailable i.e. disabled) clamps and
stops.  The loop-capable variant's step is the formula at multiplier 1. -/
theorem claimC2 (speed rs re : ℚ) (loop : Bool) (s : PlaybackState)
    (hp : s.playing = true) (hlt : rs < re) :
    ((s.pos + max 1 ((re - rs) / 500 * speed) < re →
        tickSpeed speed rs re s = ⟨s.pos + max 1 ((re - rs) / 500 * speed), true⟩)
      ∧ (re ≤ s.pos + max 1 ((re - rs) / 500 * speed) →
        tickSpeed speed rs re s = ⟨re, false⟩))
    ∧ ((s.pos + max 1 ((re - rs) / 500) < re →
        tickLoop loop rs re s = ⟨s.pos + max 1 ((re - rs) / 500), true⟩)
      ∧ (re ≤ s.pos + max 1 ((re - rs) / 500) →
        tickLoop loop rs re s = if loop then ⟨rs, true⟩ else ⟨re, false⟩)) := by
  have hnle : ¬ re ≤ rs := not_le.2 hlt
  refine ⟨⟨?_, ?_⟩, ?_, ?_⟩ <;> intro h
  · simp [tickSpeed, hp, hnle, not_le.2 h]
  · simp [tickSpeed, hp, hnle, h]
  · simp [tickLoop, hp, hnle, not_le.2 h]
  · simp [tickLoop, hp, hnle, h]

/-- Witness for C2: one mid-range tick of the speed variant and one
end-of-range tick of the loop variant. -/
theorem claimC2_witness :
    tickSpeed 1 0 20000 ⟨0, true⟩ = ⟨0 + max 1 ((20000 - 0) / 500 * 1), true⟩
    ∧ tickLoop true 0 20000 ⟨19990, true⟩
        = if true then (⟨0, true⟩ : PlaybackState) else ⟨20000, false⟩ := by
  constructor
  · exact (claimC2 1 0 20000 true ⟨0, true⟩ rfl (by norm_num)).1.1
      (by rw [show max (1 : ℚ) ((20000 - 0) / 500 * 1) = 40 from by
            rw [max_eq_right] <;> norm_num]
          norm_num)
  · exact (claimC2 1 0 20000 true ⟨19990, true⟩ rfl (by norm_num)).2.2
      (by rw [show max (1 : ℚ) ((20000 - 0) / 500) = 40 from by
            rw [max_eq_right] <;> norm_num]
          norm_num)

/-- C3 counterexample: the claim "the playback position remains within
[rangeStart, rangeEnd] after each operation" fails on a manual seek: with
full extent [0, 100] and active range [10, 20], clicking the track at its
left edge (percentage 0) sets the position to 0, outside the range, and no
clamp runs because the range did not change. -/
theorem claimC3_counterexample :
    ¬ ((applyOp 0 100 false ⟨10, 20, 15, false⟩ (TimelineOp.seek 0)).rs
        ≤ (applyOp 0 100 false ⟨10, 20, 15, false⟩ (TimelineOp.seek 0)).pos
      ∧ (applyOp 0 100 false ⟨10, 20, 15, false⟩ (TimelineOp.seek 0)).pos
        ≤ (applyOp 0 100 false ⟨10, 20, 15, false⟩ (TimelineOp.seek 0)).re) := by
  intro h
  have h1 := h.1
  norm_num [applyOp, pctToTs, clampPct] at h1

/-- C3 amended: for every sequence of tick and range-change operations
(each range change well-formed, no manual seek), the playback position
stays within the closed active range; a manual seek only guarantees the
position lands within the full dataset extent `[minTs, maxTs]`. -/
theorem claimC3_amended :
    (∀ (minT maxT : ℚ) (loop : Bool) (s : TimelineState) (ops : List TimelineOp),
      minT < maxT → (∀ op ∈ ops, opOK op = true) →
      s.rs ≤ s.re → s.rs ≤ s.pos → s.pos ≤ s.re →
      (runOps minT maxT loop s ops).rs ≤ (runOps minT maxT loop s ops).pos
      ∧ (runOps minT maxT loop s ops).pos ≤ (runOps minT maxT loop s ops).re)
    ∧ (∀ (minT maxT : ℚ) (loop : Bool) (s : TimelineState) (pct : ℚ),
      minT ≤ maxT →
      minT ≤ (applyOp minT maxT loop s (TimelineOp.seek pct)).pos
      ∧ (applyOp minT maxT loop s (TimelineOp.seek pct)).pos ≤ maxT) := by
  constructor
  · intro minT maxT loop s ops hmm hok h1 h2 h3
    have h := @runOps_inv minT maxT loop ops s hmm hok h1 h2 h3
    exact ⟨h.2.1, h.2.2⟩
  · intro minT maxT loop s pct hle
    simpa [applyOp] using pctToTs_mem hle pct

/-- Witness for C3 (amended) on a concrete tick/range-change run and a
concrete seek. -/
theorem claimC3_witness :
    ((runOps 0 100 false ⟨0, 100, 50, true⟩
          [TimelineOp.tick, TimelineOp.rangeChange 10 20]).rs
        ≤ (runOps 0 100 false ⟨0, 100, 50, true⟩
          [TimelineOp.tick, TimelineOp.rangeChange 10 20]).pos
      ∧ (runOps 0 100 false ⟨0, 100, 50, true⟩
          [TimelineOp.tick, TimelineOp.rangeChange 10 20]).pos
        ≤ (runOps 0 100 false ⟨0, 100, 50, true⟩
          [TimelineOp.tick, TimelineOp.rangeChange 10 20]).re)
    ∧ (0 ≤ (applyOp 0 100 false ⟨0, 100, 50, true⟩ (TimelineOp.seek 120)).pos
      ∧ (applyOp 0 100 false ⟨0, 100, 50, true⟩ (TimelineOp.seek 120)).pos ≤ 100) :=
  ⟨claimC3_amended.1 0 100 false ⟨0, 100, 50, true⟩
      [TimelineOp.tick, TimelineOp.rangeChange 10 20]
      (by norm_num) (by decide) (by norm_num) (by norm_num) (by norm_num),
   claimC3_amended.2 0 100 false ⟨0, 100, 50, true⟩ 120 (by norm_num)⟩

/-- C4: dragging the start handle sets `rangeStart = min(ts, rangeEnd - 1)`
and dragging the end handle sets `rangeEnd = max(ts, rangeStart + 1)`, and
after any sequence of such handle drags — the only live call sites of the
`onRangeChange` setter — a range whose separation was at least 1 keeps
`rangeStart + 1 ≤ rangeEnd`, hence `rangeStart ≤ rangeEnd`. -/
theorem claimC4 :
    (∀ (minT maxT : ℚ) (r : ℚ × ℚ) (pct : ℚ),
      applyRangeOp minT maxT r (RangeOp.dragIn pct)
        = (min (pctToTs minT maxT (clampPct pct)) (r.2 - 1), r.2)
      ∧ applyRangeOp minT maxT r (RangeOp.dragOut pct)
        = (r.1, max (pctToTs minT maxT (clampPct pct)) (r.1 + 1)))
    ∧ (∀ (minT maxT : ℚ) (r : ℚ × ℚ) (ops : List RangeOp), r.1 + 1 ≤ r.2 →
      (ops.foldl (applyRangeOp minT maxT) r).1 + 1
          ≤ (ops.foldl (applyRangeOp minT maxT) r).2
      ∧ (ops.foldl (applyRangeOp minT maxT) r).1
          ≤ (ops.foldl (applyRangeOp minT maxT) r).2) := by
  refine ⟨fun minT maxT r pct => ⟨rfl, rfl⟩, fun minT maxT r ops h => ?_⟩
  have hs := foldl_rangeOps_sep minT maxT ops r h
  exact ⟨hs, by linarith⟩

/-- Witness for C4 on a concrete drag sequence. -/
theorem claimC4_witness :
    (([RangeOp.dragIn 99, RangeOp.dragOut 1].foldl (applyRangeOp 0 100) (0, 100)).1 + 1
        ≤ ([RangeOp.dragIn 99, RangeOp.dragOut 1].foldl (applyRangeOp 0 100) (0, 100)).2
    ∧ ([RangeOp.dragIn 99, RangeOp.dragOut 1].foldl (applyRangeOp 0 100) (0, 100)).1
        ≤ ([RangeOp.dragIn 99, RangeOp.dragOut 1].foldl (applyRangeOp 0 100) (0, 100)).2) :=
  claimC4.2 0 100 (0, 100) [RangeOp.dragIn 99, RangeOp.dragOut 1] (by norm_num)

/-- C5: on the Scenario A dataset (records dated 2023-01-01, 2023-01-01,
2023-01-02 with reasons "Person with a gun", "person with gun", "Fire"),
the reason facet aggregation yields exactly
[("Person with weapon", 2), ("Fire", 1)] in that order. -/
theorem claimC5 :
    allReasonsWithCount [scenarioA1, scenarioA2, scenarioA3]
      = [("Person with weapon", 2), ("Fire", 1)] := by
  decide

/-- C6: the three fixed duration-bucket tests are exhaustive and mutually
exclusive (every numeric duration lands in exactly one bucket), a missing
or malformed duration is treated as 0, and the facet output keeps exactly
the buckets with a positive count. -/
theorem claimC6 :
    (∀ m : ℚ, (DURATION_BUCKETS.countP fun b => b.test m) = 1)
    ∧ (∀ f : DroneFlight, f.flight_duration_minutes = none → durationOf f = 0)
    ∧ (∀ (rs : List DroneFlight) (e : String × String × Nat),
        e ∈ durationsWithCount rs → 0 < e.2.2)
    ∧ (∀ (rs : List DroneFlight) (b : DurationBucket), b ∈ DURATION_BUCKETS →
        0 < rs.countP (fun f => b.test (durationOf f)) →
        (b.id, b.label, rs.countP fun f => b.test (durationOf f))
          ∈ durationsWithCount rs) := by
  refine ⟨duration_buckets_one, ?_, ?_, ?_⟩
  · intro f h
    simp [durationOf, h]
  · intro rs e he
    unfold durationsWithCount at he
    have h := (List.mem_filter.1 he).2
    simpa using h
  · intro rs b hb hpos
    unfold durationsWithCount
    exact List.mem_filter.2 ⟨List.mem_map_of_mem _ hb, by simpa using hpos⟩

/-- Witness for C6: a record with a missing duration counts as 0 and the
short bucket with one record appears in the output. -/
theorem claimC6_witness :
    durationOf ⟨0, none, none, none, none⟩ = 0
    ∧ ("short", "≤15 min", 1)
        ∈ durationsWithCount [⟨0, none, some 10, none, none⟩] := by
  constructor
  · exact claimC6.2.1 ⟨0, none, none, none, none⟩ rfl
  · have h := claimC6.2.2.2 [⟨0, none, some 10, none, none⟩]
      ⟨"short", "≤15 min", fun m => decide (m ≤ 15)⟩
      (List.mem_cons_self _ _) (by decide)
    simpa using h

/-- C7 counterexample: the claim "the output pairs are sorted descending by
count for every facet" fails on the duration facet, which is emitted in
fixed bucket order and never re-sorted: with one short and two medium
flights the output is [(short, 1), (medium, 2)], ascending. -/
theorem claimC7_counterexample :
    ¬ ((durationsWithCount
        [⟨0, none, some 10, none, none⟩, ⟨0, none, some 30, none, none⟩,
          ⟨0, none, some 30, none, none⟩]).Pairwise
      fun a b => b.2.2 ≤ a.2.2) := by
  decide

/-- C7 amended: for every record subset, each facet's bucket counts sum to
the number of records carrying a value for that facet (reasons skip records
whose trimmed reason is empty; neighborhoods count null under "Unknown" and
skip only an empty-string name; districts count null under the sentinel and
skip only an empty-string id; durations cover every record since missing
durations default to 0); the reason, neighborhood and district outputs are
sorted descending by count; the duration facet keeps the fixed bucket order
(≤15, 15–60, >60) instead of being count-sorted. -/
theorem claimC7_amended :
    (∀ rs, ((allReasonsWithCount rs).map Prod.snd).sum
        = rs.countP fun f => decide (jsTrim (f.reason_for_flight.getD "") ≠ ""))
    ∧ (∀ rs, ((neighborhoodsWithCount rs).map Prod.snd).sum
        = rs.countP fun f => decide (f.analysis_neighborhood.getD "Unknown" ≠ ""))
    ∧ (∀ rs, ((districtsWithCount rs).map Prod.snd).sum
        = rs.countP fun f => decide (f.supervisor_district.getD "—" ≠ ""))
    ∧ (∀ rs, (((durationsWithCount rs).map fun e => e.2.2).sum) = rs.length)
    ∧ (∀ rs, (allReasonsWithCount rs).Pairwise fun a b => b.2 ≤ a.2)
    ∧ (∀ rs, (neighborhoodsWithCount rs).Pairwise fun a b => b.2 ≤ a.2)
    ∧ (∀ rs, (districtsWithCount rs).Pairwise fun a b => b.2 ≤ a.2)
    ∧ (∀ rs, ((durationsWithCount rs).map fun e => e.1).Sublist
        (DURATION_BUCKETS.map fun b => b.id)) := by
  refine ⟨?_, ?_, ?_, durations_sum, ?_, ?_, ?_, ?_⟩
  · intro rs
    rw [allReasonsWithCount, sortByCountDesc_sum, List.map_map]
    simpa [Function.comp] using reasonStep_fold_sum rs []
  · intro rs
    rw [neighborhoodsWithCount, sortByCountDesc_sum, tallyBy_sum]
  · intro rs
    rw [districtsWithCount, sortByCountDesc_sum, tallyBy_sum]
  · intro rs
    exact sortByCountDesc_sorted _
  · intro rs
    exact sortByCountDesc_sorted _
  · intro rs
    exact sortByCountDesc_sorted _
  · intro rs
    unfold durationsWithCount
    simpa [List.map_map, Function.comp] using
      (List.filter_sublist
        (DURATION_BUCKETS.map fun b =>
          (b.id, b.label, rs.countP fun f => b.test (durationOf f)))).map
        (fun e : String × String × Nat => e.1)

/-- C8: the filtered-subset derivation is a pure function of
(records, selections): with all selections empty it is the identity;
membership is a conjunction across facets, each facet passing when its
selection is empty or some selected label matches the record (disjunction
within the facet); and applying the same selection to its own output
changes nothing (idempotence). -/
theorem claimC8 :
    (∀ rs : List DroneFlight, filteredFlights rs ⟨[], [], [], []⟩ = rs)
    ∧ (∀ rs sel f, f ∈ filteredFlights rs sel
        ↔ f ∈ rs
          ∧ (sel.reasons = []
              ∨ ∃ l ∈ sel.reasons, normalizeReason l
                  = normalizeReason (getCanonicalReason (f.reason_for_flight.getD "")))
          ∧ (sel.neighborhoods = []
              ∨ (∃ n, f.analysis_neighborhood = some n ∧ n ≠ ""
                  ∧ n ∈ sel.neighborhoods)
              ∨ (f.analysis_neighborhood = none ∧ "Unknown" ∈ sel.neighborhoods))
          ∧ (sel.districts = []
              ∨ ∃ d, f.supervisor_district = some d ∧ d ≠ "" ∧ d ∈ sel.districts)
          ∧ (sel.durations = []
              ∨ ∃ b ∈ DURATION_BUCKETS, b.id ∈ sel.durations
                  ∧ b.test (durationOf f) = true))
    ∧ (∀ rs sel, filteredFlights (filteredFlights rs sel) sel
        = filteredFlights rs sel) := by
  refine ⟨?_, mem_filteredFlights, ?_⟩
  · intro rs
    rw [filteredFlights_eq]
    simp [passAll]
  · intro rs sel
    simp only [filteredFlights_eq, List.filter_filter]
    apply List.filter_congr
    intro f _
    exact Bool.and_self _

/-- C9: on an empty dataset or a degenerate extent (maxTs ≤ minTs), the
percent and step computations are defined and default to zero or no-op
rather than dividing by zero: `tsToPct` returns 0, the activity histogram
is 80 zeros, and the interval tick of either variant leaves the state
unchanged when the range is degenerate. -/
theorem claimC9 :
    (∀ minT maxT ts : ℚ, maxT ≤ minT → tsToPct minT maxT ts = 0)
    ∧ (∀ (fs : List DroneFlight) (minT maxT : ℚ), fs = [] ∨ maxT ≤ minT →
        waveformHeights fs minT maxT = List.replicate WAVEFORM_BUCKETS 0
        ∧ (waveformHeights fs minT maxT).length = WAVEFORM_BUCKETS)
    ∧ (∀ (loop : Bool) (speed rs re : ℚ) (s : PlaybackState), re ≤ rs →
        tickLoop loop rs re s = s ∧ tickSpeed speed rs re s = s) := by
  refine ⟨?_, ?_, ?_⟩
  · intro minT maxT ts h
    simp [tsToPct, h]
  · intro fs minT maxT h
    have he : waveformHeights fs minT maxT = List.replicate WAVEFORM_BUCKETS 0 := by
      unfold waveformHeights
      rw [if_pos h]
    exact ⟨he, by rw [he, List.length_replicate]⟩
  · intro loop speed rs re s h
    constructor
    · unfold tickLoop
      rw [if_pos (Or.inr h)]
    · simp [tickSpeed, h]

/-- Witness for C9 at a collapsed extent and a degenerate range. -/
theorem claimC9_witness :
    tsToPct 5 5 3 = 0
    ∧ waveformHeights [] 0 0 = List.replicate WAVEFORM_BUCKETS 0
    ∧ tickLoop false 7 3 ⟨1, true⟩ = ⟨1, true⟩ :=
  ⟨claimC9.1 5 5 3 (by norm_num),
   (claimC9.2.1 [] 0 0 (Or.inl rfl)).1,
   (claimC9.2.2 false 1 7 3 ⟨1, true⟩ (by norm_num)).1⟩

/-- C10: the district facet buckets a null district under the sentinel
label "—" (its bucket count collects exactly the null and literal-sentinel
districts), yet any non-empty district selection excludes every record
whose district is null — the sentinel is unmatchable — whereas selecting
"Unknown" on the neighborhood facet does match records with a null
neighborhood. -/
theorem claimC10 :
    (∀ rs, keyTotal "—" (districtsWithCount rs)
        = rs.countP fun f =>
            decide (f.supervisor_district = none ∨ f.supervisor_district = some "—"))
    ∧ (∀ rs sel f, sel ≠ [] → f.supervisor_district = none →
        f ∉ filteredFlights rs ⟨[], [], sel, []⟩)
    ∧ (∀ rs sel f, "Unknown" ∈ sel → f ∈ rs → f.analysis_neighborhood = none →
        f ∈ filteredFlights rs ⟨[], sel, [], []⟩) := by
  refine ⟨?_, ?_, ?_⟩
  · intro rs
    rw [keyTotal_districts]
    apply List.countP_congr
    intro f _
    cases hd : f.supervisor_district with
    | none => simp
    | some d =>
      by_cases h : d = "—"
      · subst h
        simp
      · simp [h]
  · intro rs sel f hsel hd hmem
    rw [mem_filteredFlights] at hmem
    obtain ⟨-, -, -, hdist, -⟩ := hmem
    rcases hdist with h | ⟨d, hdd, -, -⟩
    · exact hsel h
    · rw [hd] at hdd
      exact Option.noConfusion hdd
  · intro rs sel f hU hf hn
    rw [mem_filteredFlights]
    exact ⟨hf, Or.inl rfl, Or.inr (Or.inr ⟨hn, hU⟩), Or.inl rfl, Or.inl rfl⟩

/-- Witness for C10: one record with null district and neighborhood; with
the sentinel itself selected the record is filtered out on the district
facet, while selecting "Unknown" keeps it on the neighborhood facet. -/
theorem claimC10_witness :
    ((⟨0, none, none, none, none⟩ : DroneFlight)
        ∉ filteredFlights [⟨0, none, none, none, none⟩] ⟨[], [], ["—"], []⟩)
    ∧ ((⟨0, none, none, none, none⟩ : DroneFlight)
        ∈ filteredFlights [⟨0, none, none, none, none⟩] ⟨[], ["Unknown"], [], []⟩) :=
  ⟨claimC10.2.1 [⟨0, none, none, none, none⟩] ["—"] ⟨0, none, none, none, none⟩
      (by simp) rfl,
   claimC10.2.2 [⟨0, none, none, none, none⟩] ["Unknown"] ⟨0, none, none, none, none⟩
      (by simp) (by simp) rfl⟩

end SfpdDash
